import Mathlib

/-!
Verification development for the `play` repository: a single-endpoint Flask
service (`src/app.py`) that turns GitLab code-review discussions into a PDF.
The definitions below are a shallow embedding of `src/app.py`:
pure Python functions become Lean functions, dictionary accesses become
`Option` fields whose absence raises the structural error, Python exceptions
become `Except`, and the two external collaborators (the `pisa` PDF engine
and the wall clock) become explicit parameters.
-/

namespace Play

/-- The Python exceptions that can escape the rendering pipeline:
`formatError` models the `ValueError` raised by `datetime.strptime` on a
malformed timestamp, `structureError` models the `KeyError`/`IndexError`
raised by a missing dictionary key or by `notes[0]` on an empty list,
and `renderError` models an exception raised inside `pisa.CreatePDF`. -/
inductive AppError where
  | formatError
  | structureError
  | renderError
deriving DecidableEq, Repr

/-- A naive civil datetime, as produced by `datetime.strptime`:
year, month, day, hour, minute, second, microsecond. -/
structure DateTime where
  year : Nat
  month : Nat
  day : Nat
  hour : Nat
  minute : Nat
  second : Nat
  micro : Nat
deriving DecidableEq, Repr

def digitVal (c : Char) : Nat := c.toNat - 48

/-- Splits off the maximal leading run of ASCII digits. -/
def takeDigits : List Char → List Char × List Char
  | [] => ([], [])
  | c :: rest =>
    if c.isDigit then
      let p := takeDigits rest
      (c :: p.1, p.2)
    else ([], c :: rest)

/-- CPython's strptime matches a 1-or-2 digit field as an ordered regex
alternation; because every field in the format `%Y-%m-%dT%H:%M:%S.%fZ` is
followed by a non-digit literal, that alternation accepts a maximal digit
run of length 1 or 2 exactly when one of the given predicates accepts it. -/
def field2or1 (ok2 : Char → Char → Bool) (ok1 : Char → Bool) : List Char → Option Nat
  | [a] => if ok1 a then some (digitVal a) else none
  | [a, b] => if ok2 a b then some (10 * digitVal a + digitVal b) else none
  | _ => none

def expectAny (cands : List Char) : List Char → Option (List Char)
  | c :: rest => if cands.contains c then some rest else none
  | [] => none

/-- `%m` two-digit branch: `1[0-2]|0[1-9]`. -/
def month2ok (a b : Char) : Bool := (a = '1' && b ≤ '2') || (a = '0' && '1' ≤ b)

/-- `%d` two-digit branch: `3[01]|[12]\d|0[1-9]`. -/
def day2ok (a b : Char) : Bool :=
  (a = '3' && b ≤ '1') || a = '1' || a = '2' || (a = '0' && '1' ≤ b)

/-- `%H` two-digit branch: `2[0-3]|[0-1]\d`. -/
def hour2ok (a b : Char) : Bool := (a = '2' && b ≤ '3') || a = '0' || a = '1'

/-- `%M` two-digit branch: `[0-5]\d`. -/
def minute2ok (a _b : Char) : Bool := a ≤ '5'

/-- `%S` two-digit branch: `6[0-1]|[0-5]\d` (strptime tolerates leap seconds;
the `datetime` constructor then rejects a second above 59). -/
def second2ok (a b : Char) : Bool := (a = '6' && b ≤ '1') || a ≤ '5'

def isLeapYear (y : Nat) : Bool := (y % 4 = 0 && y % 100 ≠ 0) || y % 400 = 0

def daysInMonth (y m : Nat) : Nat :=
  if m = 2 then (if isLeapYear y then 29 else 28)
  else if m = 4 || m = 6 || m = 9 || m = 11 then 30 else 31

/-- Embedding of `datetime.strptime(s, "%Y-%m-%dT%H:%M:%S.%fZ")` from
`convert_utc_to_est`: CPython compiles the format to a regex that must match
the whole string (case-insensitively, so `t`/`z` are accepted for the
literals), `%Y` is exactly four digits, `%m`/`%d`/`%H`/`%M`/`%S` accept one
or two digits within their ranges, `%f` accepts one to six digits padded
right to microseconds, and the `datetime` constructor then rejects year 0,
a day beyond the month's length, and a second above 59. -/
def parseTimestamp (s : String) : Option DateTime := do
  let p0 := takeDigits s.toList
  let y ← match p0.1 with
          | [a, b, c, d] =>
            some (digitVal a * 1000 + digitVal b * 100 + digitVal c * 10 + digitVal d)
          | _ => none
  let r1 ← expectAny ['-'] p0.2
  let p1 := takeDigits r1
  let m ← field2or1 month2ok (fun a => '1' ≤ a) p1.1
  let r2 ← expectAny ['-'] p1.2
  let p2 := takeDigits r2
  let d ← field2or1 day2ok (fun a => '1' ≤ a) p2.1
  let r3 ← expectAny ['T', 't'] p2.2
  let p3 := takeDigits r3
  let h ← field2or1 hour2ok (fun _ => true) p3.1
  let r4 ← expectAny [':'] p3.2
  let p4 := takeDigits r4
  let mi ← field2or1 minute2ok (fun _ => true) p4.1
  let r5 ← expectAny [':'] p4.2
  let p5 := takeDigits r5
  let sec ← field2or1 second2ok (fun _ => true) p5.1
  let r6 ← expectAny ['.'] p5.2
  let p6 := takeDigits r6
  let micro ← if p6.1.length = 0 || 6 < p6.1.length then none
              else some ((p6.1.foldl (fun acc c => acc * 10 + digitVal c) 0)
                          * 10 ^ (6 - p6.1.length))
  let r7 ← expectAny ['Z', 'z'] p6.2
  if !r7.isEmpty then none
  else if y = 0 then none
  else if daysInMonth y m < d then none
  else if 59 < sec then none
  else some ⟨y, m, d, h, mi, sec, micro⟩

/-- Days since 0000-03-01 in the proleptic Gregorian calendar
(Hinnant's civil-calendar algorithm), defined for the years ≥ 1 that
`parseTimestamp` can produce. -/
def daysSinceEpoch (y m d : Nat) : Nat :=
  let yAdj := y - (if m ≤ 2 then 1 else 0)
  let era := yAdj / 400
  let yoe := yAdj % 400
  let mp := if 2 < m then m - 3 else m + 9
  let doy := (153 * mp + 2) / 5 + (d - 1)
  let doe := yoe * 365 + yoe / 4 - yoe / 100 + doy
  era * 146097 + doe

/-- Inverse of `daysSinceEpoch`: the civil (year, month, day) of a day count. -/
def civilFromDays (z : Nat) : Nat × Nat × Nat :=
  let era := z / 146097
  let doe := z % 146097
  let yoe := (doe - doe / 1460 + doe / 36524 - doe / 146096) / 365
  let y := yoe + era * 400
  let doy := doe - (365 * yoe + yoe / 4 - yoe / 100)
  let mp := (5 * doy + 2) / 153
  let d := doy - (153 * mp + 2) / 5 + 1
  let m := if mp < 10 then mp + 3 else mp - 9
  (if m ≤ 2 then y + 1 else y, m, d)

/-- Seconds since 0000-03-01T00:00:00 of a civil datetime taken as UTC. -/
def dtToSeconds (dt : DateTime) : Nat :=
  daysSinceEpoch dt.year dt.month dt.day * 86400
    + dt.hour * 3600 + dt.minute * 60 + dt.second

/-- Civil datetime of a count of seconds since 0000-03-01T00:00:00. -/
def secondsToDateTime (n : Nat) (micro : Nat) : DateTime :=
  let c := civilFromDays (n / 86400)
  let sod := n % 86400
  ⟨c.1, c.2.1, c.2.2, sod / 3600, sod % 3600 / 60, sod % 60, micro⟩

/-- Day of week (0 = Sunday) of a civil date; day 0 (0000-03-01) was a
Wednesday and the 146097-day Gregorian cycle is a whole number of weeks. -/
def dayOfWeek (y m d : Nat) : Nat := (daysSinceEpoch y m d + 3) % 7

def secondSundayOfMarch (y : Nat) : Nat := 8 + (7 - dayOfWeek y 3 1) % 7

def firstSundayOfNovember (y : Nat) : Nat := 1 + (7 - dayOfWeek y 11 1) % 7

/-- Model of the external tz database entry `America/New_York` consulted by
`pytz` in `convert_utc_to_est`, for the rule in force since 2007 (the years
exercised by this service's GitLab timestamps): daylight saving is in effect
from 07:00 UTC on the second Sunday of March until 06:00 UTC on the first
Sunday of November. -/
def isDstNewYork (dt : DateTime) : Bool :=
  let key := (((dt.month * 32 + dt.day) * 24 + dt.hour) * 60 + dt.minute) * 60 + dt.second
  let startKey := (((3 * 32 + secondSundayOfMarch dt.year) * 24 + 7) * 60) * 60
  let endKey := (((11 * 32 + firstSundayOfNovember dt.year) * 24 + 6) * 60) * 60
  startKey ≤ key && key < endKey

/-- Seconds west of UTC for `America/New_York` at a given UTC instant:
UTC−4 under daylight saving, UTC−5 otherwise. -/
def nyOffsetSeconds (dt : DateTime) : Nat :=
  if isDstNewYork dt then 14400 else 18000

/-- Embedding of `utc_timestamp.astimezone(pytz.timezone('America/New_York'))`:
shift the UTC instant west by the zone's offset at that instant. -/
def astimezoneNewYork (dt : DateTime) : DateTime :=
  secondsToDateTime (dtToSeconds dt - nyOffsetSeconds dt) dt.micro

def pad2 (n : Nat) : String := if n < 10 then "0" ++ toString n else toString n

def pad4 (n : Nat) : String :=
  if n < 10 then "000" ++ toString n
  else if n < 100 then "00" ++ toString n
  else if n < 1000 then "0" ++ toString n
  else toString n

def dashStr : String := "-"
def spaceStr : String := " "
def colonStr : String := ":"

/-- Embedding of `strftime("%Y-%m-%d %H:%M:%S")`. -/
def formatEastern (dt : DateTime) : String :=
  pad4 dt.year ++ dashStr ++ pad2 dt.month ++ dashStr ++ pad2 dt.day ++ spaceStr
    ++ pad2 dt.hour ++ colonStr ++ pad2 dt.minute ++ colonStr ++ pad2 dt.second

/-- Embedding of `convert_utc_to_est` (`src/app.py` lines 66-102): `None`
passes through, a parse failure raises `ValueError` (`formatError`), and a
well-formed timestamp is converted to Eastern time and formatted. -/
def convert_utc_to_est : Option String → Except AppError (Option String)
  | none => Except.ok none
  | some s =>
    match parseTimestamp s with
    | none => Except.error AppError.formatError
    | some utc_timestamp =>
      Except.ok (some (formatEastern (astimezoneNewYork utc_timestamp)))

/-- Follows the spec's words for the TimestampNormalizer contract: if absent,
return absent; otherwise parse as UTC, convert the instant to the fixed
target zone "America/New_York" (observing that zone's daylight-saving rules
for the given date, as modelled by `nyOffsetSeconds`), and format as
`YYYY-MM-DD HH:MM:SS` with no offset suffix. -/
def normalize_spec : Option String → Except AppError (Option String)
  | none => Except.ok none
  | some s =>
    match parseTimestamp s with
    | none => Except.error AppError.formatError
    | some dt =>
      let utcSecs := dtToSeconds dt
      let localSecs := utcSecs - nyOffsetSeconds dt
      Except.ok (some (formatEastern (secondsToDateTime localSecs dt.micro)))

/-! ## Data model

The request body is parsed JSON; in `src/app.py` every record is a plain
dictionary read with `d[key]` (raising `KeyError` when absent), so every
field below is an `Option` whose `none` models an absent key.
`Note.created_at` is doubly optional: the outer `Option` is key presence,
the inner one distinguishes a JSON `null` (Python `None`, which
`convert_utc_to_est` passes through) from a string value. -/

structure Author where
  name : Option String
  username : Option String
  web_url : Option String
  avatar_url : Option String
deriving DecidableEq, Repr

structure Note where
  author : Option Author
  body : Option String
  created_at : Option (Option String)
deriving DecidableEq, Repr

structure Discussion where
  id : Option String
  notes : Option (List Note)
deriving DecidableEq, Repr

/-- Python's f-string interpolation of an `Optional[str]`: `None` prints as
the four characters `None`. -/
def fmtOpt : Option String → String
  | none => "None"
  | some s => s

/-! ## The HTML fragments of `generate_code_review_pdf`

Each definition below is one of the f-string literals of
`src/app.py` lines 130-200, with the interpolated expressions as
parameters; whitespace and newlines reproduce the Python triple-quoted
strings exactly.  The CSS apostrophes of the reply row are written `\x27`. -/

def htmlH1Open : String :=
  "\n    <!DOCTYPE html>\n    <html>\n    <body>\n    <h1>"

def htmlH1Close : String :=
  "</h1>\n    <p style=\"text-align: right;\">"

def htmlHeaderEnd : String := "</p>\n    "

/-- The document prologue: title heading and generated-at timestamp
(`now` is the rendered `datetime.now(pytz.timezone('America/New_York'))`). -/
def htmlHeader (pdf_name now : String) : String :=
  htmlH1Open ++ pdf_name ++ htmlH1Close ++ now ++ htmlHeaderEnd

def htmlFooter : String := "\n    </body>\n    </html>\n    "

/-- The opening chunk of one discussion block (first note). -/
def blockOpen (avatar_url name web_url username id body : String) : String :=
  "\n        <hr>\n        <table style=\"width: 100%;\">\n            <tr>\n                <td style=\"width: 30px; padding-right: 10px; vertical-align: top;\">\n                    <div style=\"height: 30px; width: 30px; overflow: hidden;\">\n                        <img src=\""
    ++ avatar_url
    ++ "\" alt=\"Avatar\" style=\"height: 30px; width: 30px;\">\n                    </div>\n                </td>\n                <td style=\"vertical-align: top;\">\n                    <p>"
    ++ name ++ " <a href=\"" ++ web_url ++ "\">@" ++ username
    ++ "</a></p>\n                    <p><strong>" ++ id ++ "</strong>: " ++ body
    ++ "</p>\n        "

/-- One nested reply row (notes at index 1 onwards). -/
def replyRow (avatar_url name web_url username timestamp body : String) : String :=
  "\n                    <hr style=\"border-top: 1px dotted #000; color: transparent; background-color: transparent; height: 1px; width:100%;\">\n                    <table>\n                        <tr>\n                            <td style=\"width: 30px;\"><img src=\""
    ++ avatar_url
    ++ "\" alt=\"Avatar\" style=\"height: 10px; width: 10px;\"></td>\n                            <td>"
    ++ name ++ " <a href=\"" ++ web_url ++ "\">@" ++ username
    ++ "</a></td>\n                            <td style=\"text-align: right; vertical-align: top;\">"
    ++ timestamp
    ++ "</td>\n                        </tr>\n                        <tr>\n                            <td colspan=\"3\"><p style=\x27word-break: break-all;\x27>"
    ++ body
    ++ "</p></td>\n                        </tr>\n                    </table>\n                    "

/-- The closing chunk of one discussion block, carrying the first note's
right-aligned timestamp. -/
def blockClose (timestamp : String) : String :=
  "\n                </td>\n                <td style=\"text-align: right; vertical-align: top;\">\n                    <p>"
    ++ timestamp
    ++ "</p>\n                </td>\n            </tr>\n        </table>\n        "

/-! ## The renderer -/

/-- One reply note (`for note in notes[1:]`), with the dictionary accesses
in source order: `author`, `avatar_url`, `created_at` (converted), `username`,
`web_url`, `name`, then `note["body"]` inside the f-string. -/
def renderReply (note : Note) : Except AppError String :=
  match note.author with
  | none => Except.error AppError.structureError
  | some author =>
  match author.avatar_url with
  | none => Except.error AppError.structureError
  | some avatar_url =>
  match note.created_at with
  | none => Except.error AppError.structureError
  | some created_at =>
  match convert_utc_to_est created_at with
  | Except.error e => Except.error e
  | Except.ok timestamp =>
  match author.username with
  | none => Except.error AppError.structureError
  | some username =>
  match author.web_url with
  | none => Except.error AppError.structureError
  | some web_url =>
  match author.name with
  | none => Except.error AppError.structureError
  | some name =>
  match note.body with
  | none => Except.error AppError.structureError
  | some body =>
    Except.ok (replyRow avatar_url name web_url username (fmtOpt timestamp) body)

/-- The inner `for note in notes[1:]` loop: appends each reply row in list
order, failing the whole render at the first bad note. -/
def renderReplies : List Note → Except AppError String
  | [] => Except.ok ""
  | note :: rest =>
    match renderReply note with
    | Except.error e => Except.error e
    | Except.ok row =>
      match renderReplies rest with
      | Except.error e => Except.error e
      | Except.ok t => Except.ok (row ++ t)

/-- One discussion block, with the source's access order: `notes` (KeyError
if absent), `notes[0]` (IndexError if empty), the first note's `author` and
its fields, the converted `created_at`, then `discussion["id"]` and the
first note's `body` inside the opening f-string, then the replies, then the
closing chunk. -/
def renderDiscussionBlock (discussion : Discussion) : Except AppError String :=
  match discussion.notes with
  | none => Except.error AppError.structureError
  | some notes =>
  match notes with
  | [] => Except.error AppError.structureError
  | first_note :: laterNotes =>
  match first_note.author with
  | none => Except.error AppError.structureError
  | some author =>
  match author.avatar_url with
  | none => Except.error AppError.structureError
  | some avatar_url =>
  match first_note.created_at with
  | none => Except.error AppError.structureError
  | some created_at =>
  match convert_utc_to_est created_at with
  | Except.error e => Except.error e
  | Except.ok timestamp =>
  match author.username with
  | none => Except.error AppError.structureError
  | some username =>
  match author.web_url with
  | none => Except.error AppError.structureError
  | some web_url =>
  match author.name with
  | none => Except.error AppError.structureError
  | some name =>
  match discussion.id with
  | none => Except.error AppError.structureError
  | some idStr =>
  match first_note.body with
  | none => Except.error AppError.structureError
  | some body =>
  match renderReplies laterNotes with
  | Except.error e => Except.error e
  | Except.ok replies =>
    Except.ok (blockOpen avatar_url name web_url username idStr body
                ++ replies ++ blockClose (fmtOpt timestamp))

/-- The outer `for discussion in discussions` loop: one block per
discussion, concatenated in input order, with no sorting, filtering or
deduplication; the first exception aborts the whole render. -/
def renderDiscussions : List Discussion → Except AppError String
  | [] => Except.ok ""
  | discussion :: rest =>
    match renderDiscussionBlock discussion with
    | Except.error e => Except.error e
    | Except.ok block =>
      match renderDiscussions rest with
      | Except.error e => Except.error e
      | Except.ok t => Except.ok (block ++ t)

/-- The HTML document assembled by `generate_code_review_pdf` before it is
handed to `pisa.CreatePDF`; `now` stands for the formatted render-time
clock reading. -/
def generate_html (now : String) (discussions : List Discussion)
    (pdf_name : String) : Except AppError String :=
  match renderDiscussions discussions with
  | Except.error e => Except.error e
  | Except.ok body => Except.ok (htmlHeader pdf_name now ++ body ++ htmlFooter)

/-- The result object of `pisa.CreatePDF`: its `err` field counts rendering
errors; the PDF bytes are what the engine wrote into the `BytesIO` buffer. -/
structure PisaStatus where
  err : Nat
deriving DecidableEq, Repr

/-- The external PDF engine (`pisa.CreatePDF`) as an opaque collaborator:
given the HTML it either raises (`Except.error`, modelling a Python
exception escaping the engine) or returns its status object together with
the bytes written to the destination buffer. -/
def Engine : Type := String → Except AppError (PisaStatus × List Nat)

/-- Embedding of `generate_code_review_pdf` (`src/app.py` lines 106-206):
build the HTML, call the engine, and return the buffer.  The engine's
status object is bound to `pisa_status` in the source and then ignored —
the buffer is returned whatever `err` says. -/
def generate_code_review_pdf (engine : Engine) (now : String)
    (discussions : List Discussion) (pdf_name : String) :
    Except AppError (List Nat) :=
  match generate_html now discussions pdf_name with
  | Except.error e => Except.error e
  | Except.ok html =>
    match engine html with
    | Except.error e => Except.error e
    | Except.ok statusAndBytes => Except.ok statusAndBytes.2

/-! ## The request handler -/

/-- A parsed JSON object body: the two keys the handler reads, plus the
list of any other keys (which only matter for Python truthiness). -/
structure ReqBody where
  discussions : Option (List Discussion)
  name : Option String
  otherKeys : List String
deriving DecidableEq, Repr

/-- Python truthiness of the parsed JSON object: `not request.json` is true
exactly when the dictionary is empty. -/
def ReqBody.truthy (b : ReqBody) : Bool :=
  b.discussions.isSome || b.name.isSome || !b.otherKeys.isEmpty

/-- An inbound request: the HTTP method, the `X-API-KEY` header (absent
headers read as `None`), and the parsed JSON body (`none` models an absent
or unparseable body). -/
structure Request where
  method : String
  api_key : Option String
  json : Option ReqBody
deriving DecidableEq, Repr

inductive RespBody where
  | jsonErr (msg : String)
  | pdf (bytes : List Nat)
deriving DecidableEq, Repr

structure HttpResponse where
  status : Nat
  mimetype : String
  contentDisposition : Option String
  body : RespBody
deriving DecidableEq, Repr

/-- Outcome of one request: either a response built by the handler, or an
uncaught Python exception (`crash`), which the surrounding Flask transport
turns into a generic 500 with no structured error body. -/
inductive HandlerResult where
  | response (r : HttpResponse)
  | crash (e : AppError)
deriving DecidableEq, Repr

/-- The HTTP status the client observes. -/
def HandlerResult.statusCode : HandlerResult → Nat
  | response r => r.status
  | crash _ => 500

def DEFAULT_KEY : String := "1840ca99-74ac-45d2-8476-3baf66f64125"

/-- `api_key not in VALID_API_KEYS`, negated: an absent header (`None`)
is never a member of the loaded key list. -/
def keyValid (validKeys : List String) : Option String → Bool
  | none => false
  | some k => validKeys.contains k

def invalidKeyLogPre : String := "Invalid API key used: "
def usedKeyLogPre : String := "API key used: "

/-- The audit-log line written on a failed AuthCheck. -/
def invalidKeyLog (k : Option String) : String := invalidKeyLogPre ++ fmtOpt k

/-- The audit-log line written on a successful AuthCheck. -/
def usedKeyLog (k : Option String) : String := usedKeyLogPre ++ fmtOpt k

def mimeJson : String := "application/json"
def mimePdf : String := "application/pdf"
def dispositionPre : String := "attachment; filename="
def pdfFileName : String := "code_review.pdf"
def methodPOST : String := "POST"
def defaultPdfName : String := "Code Review Comments"
def msgInvalidMethod : String := "Invalid request method"
def msgInvalidKey : String := "Invalid API key"
def msgMissingBody : String := "Missing body in request"
def msgMissingDiscussions : String := "Missing discussions in request"

/-- A Flask `({'error': msg}, status)` return value. -/
def jsonErrorResponse (status : Nat) (msg : String) : HttpResponse :=
  { status := status, mimetype := mimeJson, contentDisposition := none,
    body := RespBody.jsonErr msg }

/-- Embedding of `send_pdf_response` (`src/app.py` lines 256-276). -/
def send_pdf_response (pdf_bytes : List Nat) (filename : String) : HttpResponse :=
  { status := 200, mimetype := mimePdf,
    contentDisposition := some (dispositionPre ++ filename),
    body := RespBody.pdf pdf_bytes }

/-- Embedding of `handle_generate_pdf` (`src/app.py` lines 208-254),
returning the handler outcome together with the audit-log lines written
during the request.  The checks appear in source order: method, API key
(logged on failure and on success), `not request.json` (true for an absent
body and for an empty JSON object alike), the `discussions` key, the
optional `name`, then the uncaught rendering call. -/
def handle_generate_pdf (validKeys : List String) (engine : Engine)
    (now : String) (req : Request) : HandlerResult × List String :=
  if req.method ≠ methodPOST then
    (HandlerResult.response (jsonErrorResponse 405 msgInvalidMethod), [])
  else if keyValid validKeys req.api_key = false then
    (HandlerResult.response (jsonErrorResponse 401 msgInvalidKey),
      [invalidKeyLog req.api_key])
  else
    let logs := [usedKeyLog req.api_key]
    match req.json with
    | none => (HandlerResult.response (jsonErrorResponse 400 msgMissingBody), logs)
    | some data =>
      if data.truthy = false then
        (HandlerResult.response (jsonErrorResponse 400 msgMissingBody), logs)
      else
        match data.discussions with
        | none =>
          (HandlerResult.response (jsonErrorResponse 400 msgMissingDiscussions), logs)
        | some discussions =>
          let pdf_name := data.name.getD defaultPdfName
          match generate_code_review_pdf engine now discussions pdf_name with
          | Except.error e => (HandlerResult.crash e, logs)
          | Except.ok pdf =>
            (HandlerResult.response (send_pdf_response pdf pdfFileName), logs)

/-! ## Concrete sample data for witnesses and counterexamples -/

def tsWinter : String := "2023-01-15T12:00:00.000000Z"
def outWinter : String := "2023-01-15 07:00:00"
def tsSummer : String := "2023-06-01T12:00:00.000000Z"
def outSummer : String := "2023-06-01 08:00:00"
def tsSpringEnd : String := "2023-03-12T06:59:59.000000Z"
def outSpringEnd : String := "2023-03-12 01:59:59"
def tsSpringStart : String := "2023-03-12T07:00:00.000000Z"
def outSpringStart : String := "2023-03-12 03:00:00"
def tsFallEnd : String := "2023-11-05T05:59:59.000000Z"
def outFallEnd : String := "2023-11-05 01:59:59"
def tsFallStart : String := "2023-11-05T06:00:00.000000Z"
def outFallStart : String := "2023-11-05 01:00:00"
def badTs : String := "not-a-timestamp"
def badKey : String := "wrong-key"
def nowSample : String := "2024-01-02 03:04:05"
def titleSprint : String := "Sprint 4"
def nmAlice : String := "Alice"
def unAlice : String := "alice"
def wuAlice : String := "https://x/alice"
def auAlice : String := "https://x/a.png"
def bodyHello : String := "Hello"
def bodyReply : String := "Looks good"
def idD1 : String := "d1"
def idD2 : String := "d2"
def idD3 : String := "d3"
def strEmpty : String := ""

def aliceAuthor : Author :=
  { name := some nmAlice, username := some unAlice,
    web_url := some wuAlice, avatar_url := some auAlice }

def aliceNote : Note :=
  { author := some aliceAuthor, body := some bodyHello,
    created_at := some (some tsSummer) }

def aliceReply : Note :=
  { author := some aliceAuthor, body := some bodyReply,
    created_at := some (some tsWinter) }

/-- A discussion with a single (opening) note. -/
def d1 : Discussion := { id := some idD1, notes := some [aliceNote] }

/-- A discussion with an opening note and one reply. -/
def d2 : Discussion := { id := some idD2, notes := some [aliceNote, aliceReply] }

/-- A discussion whose `notes` list is empty. -/
def emptyDiscussion : Discussion := { id := some idD3, notes := some [] }

def pdfBytesSample : List Nat := [37, 80, 68, 70]

/-- A well-behaved engine: no error, a fixed non-empty byte output. -/
def engineOk : Engine := fun _ => Except.ok (⟨0⟩, pdfBytesSample)

/-- An engine whose status object reports a failure (`err = 1`) and which
wrote nothing to the buffer — the soft failure mode of `pisa.CreatePDF`. -/
def engineFail : Engine := fun _ => Except.ok (⟨1⟩, [])

/-- The parse of the JSON body `{}`. -/
def emptyBody : ReqBody := { discussions := none, name := none, otherKeys := [] }

def bodySample : ReqBody :=
  { discussions := some [d1], name := none, otherKeys := [] }

def bodyNamed : ReqBody :=
  { discussions := some [d1], name := some titleSprint, otherKeys := [] }

def bodyEmptyList : ReqBody :=
  { discussions := some [], name := none, otherKeys := [] }

def bodyEmptyNotes : ReqBody :=
  { discussions := some [emptyDiscussion], name := none, otherKeys := [] }

def reqSample : Request :=
  { method := methodPOST, api_key := some DEFAULT_KEY, json := some bodySample }

def reqNamed : Request :=
  { method := methodPOST, api_key := some DEFAULT_KEY, json := some bodyNamed }

def reqEmptyBody : Request :=
  { method := methodPOST, api_key := some DEFAULT_KEY, json := some emptyBody }

def reqEmptyList : Request :=
  { method := methodPOST, api_key := some DEFAULT_KEY, json := some bodyEmptyList }

def reqEmptyNotes : Request :=
  { method := methodPOST, api_key := some DEFAULT_KEY, json := some bodyEmptyNotes }

def reqBadKey : Request :=
  { method := methodPOST, api_key := some badKey, json := some bodySample }

/-- `renderDiscussionBlock` succeeds on this discussion; decidable stand-in
used to state when a discussion is individually renderable. -/
def discussionRenderable (d : Discussion) : Bool :=
  match renderDiscussionBlock d with
  | Except.ok _ => true
  | Except.error _ => false

/-- Concatenation of a list of HTML chunks, in order. -/
def concatAll : List String → String
  | [] => ""
  | s :: rest => s ++ concatAll rest

/-! ## Theorems -/

/-- Claim C3: `convert_utc_to_est` returns `None` for an absent input with
no error, and on every input behaves exactly as the spec's
TimestampNormalizer contract (`normalize_spec`): parse the fixed-format UTC
timestamp, convert the instant to America/New_York observing that zone's
daylight-saving rules for the given date, and format it `YYYY-MM-DD
HH:MM:SS` with no offset suffix.  The concrete conjuncts exhibit the zone
rules: UTC−5 in winter, UTC−4 in summer, and the 2023 spring-forward and
fall-back boundaries at 07:00 UTC (second Sunday of March) and 06:00 UTC
(first Sunday of November). -/
theorem c3_normalizer :
    convert_utc_to_est none = Except.ok none
    ∧ (∀ o, convert_utc_to_est o = normalize_spec o)
    ∧ convert_utc_to_est (some tsWinter) = Except.ok (some outWinter)
    ∧ convert_utc_to_est (some tsSummer) = Except.ok (some outSummer)
    ∧ convert_utc_to_est (some tsSpringEnd) = Except.ok (some outSpringEnd)
    ∧ convert_utc_to_est (some tsSpringStart) = Except.ok (some outSpringStart)
    ∧ convert_utc_to_est (some tsFallEnd) = Except.ok (some outFallEnd)
    ∧ convert_utc_to_est (some tsFallStart) = Except.ok (some outFallStart) := by
  refine ⟨rfl, ?_, rfl, rfl, rfl, rfl, rfl, rfl⟩
  intro o
  cases o with
  | none => rfl
  | some s =>
    cases h : parseTimestamp s <;>
      simp [convert_utc_to_est, normalize_spec, h, astimezoneNewYork]

/-- Claim C6: a present input string that `datetime.strptime` rejects makes
`convert_utc_to_est` fail with the `ValueError` (`formatError`), which
propagates to the caller; it never silently returns a default timestamp. -/
theorem c6_format_error (s : String) (h : parseTimestamp s = none) :
    convert_utc_to_est (some s) = Except.error AppError.formatError := by
  simp [convert_utc_to_est, h]

theorem c6_format_error_witness :
    parseTimestamp badTs = none
    ∧ convert_utc_to_est (some badTs) = Except.error AppError.formatError :=
  ⟨by decide, c6_format_error badTs (by decide)⟩

/-- Claim C1 (counterexample): with a valid API key and a body parsing to
the empty JSON object `{}`, the handler responds 400 with the
missing-body error, not the missing-discussions error the claim names:
`if not request.json` is true for an empty dictionary, so the field check
is never reached. -/
theorem c1_counterexample :
    (handle_generate_pdf [DEFAULT_KEY] engineOk nowSample reqEmptyBody).1
      = HandlerResult.response (jsonErrorResponse 400 msgMissingBody)
    ∧ jsonErrorResponse 400 msgMissingBody
        ≠ jsonErrorResponse 400 msgMissingDiscussions := by
  exact ⟨rfl, by decide⟩

/-- Claim C1 (amended): for every request with a valid API key whose body
parses as the empty JSON object `{}`, the handler responds 400 with body
`{"error": "Missing body in request"}` — the missing-body error — because
an empty dictionary is falsy in the body check, and the attempted key is
still logged. -/
theorem c1_amended (validKeys : List String) (engine : Engine) (now : String)
    (req : Request) (hm : req.method = methodPOST)
    (hk : keyValid validKeys req.api_key = true)
    (hj : req.json = some emptyBody) :
    handle_generate_pdf validKeys engine now req
      = (HandlerResult.response (jsonErrorResponse 400 msgMissingBody),
         [usedKeyLog req.api_key]) := by
  simp [handle_generate_pdf, hm, hk, hj, ReqBody.truthy, emptyBody]

theorem c1_amended_witness :
    reqEmptyBody.method = methodPOST
    ∧ keyValid [DEFAULT_KEY] reqEmptyBody.api_key = true
    ∧ reqEmptyBody.json = some emptyBody
    ∧ handle_generate_pdf [DEFAULT_KEY] engineOk nowSample reqEmptyBody
        = (HandlerResult.response (jsonErrorResponse 400 msgMissingBody),
           [usedKeyLog (some DEFAULT_KEY)]) :=
  ⟨rfl, by decide, rfl,
    c1_amended [DEFAULT_KEY] engineOk nowSample reqEmptyBody rfl (by decide) rfl⟩

/-- Claim C7: a request whose `X-API-KEY` header is absent or not in the
valid-key list gets a 401 with `{"error": "Invalid API key"}` computed
without looking at the body (the outcome is identical for every body), the
attempted key is written to the audit log, an absent header is never valid,
and a valid key is likewise logged before any further processing on every
authenticated request. -/
theorem c7_auth (validKeys : List String) (engine : Engine) (now : String)
    (req : Request) (hm : req.method = methodPOST)
    (hk : keyValid validKeys req.api_key = false) :
    handle_generate_pdf validKeys engine now req
      = (HandlerResult.response (jsonErrorResponse 401 msgInvalidKey),
         [invalidKeyLog req.api_key])
    ∧ (∀ j, handle_generate_pdf validKeys engine now { req with json := j }
        = handle_generate_pdf validKeys engine now req)
    ∧ keyValid validKeys none = false
    ∧ (∀ req2 : Request, req2.method = methodPOST →
        keyValid validKeys req2.api_key = true →
        (handle_generate_pdf validKeys engine now req2).2
          = [usedKeyLog req2.api_key]) := by
  refine ⟨?_, ?_, rfl, ?_⟩
  · simp [handle_generate_pdf, hm, hk]
  · intro j
    simp [handle_generate_pdf, hm, hk]
  · intro req2 hm2 hk2
    simp only [handle_generate_pdf, hm2, hk2]
    simp only [ne_eq, not_true_eq_false, if_false, Bool.true_eq_false, reduceIte]
    cases hj : req2.json with
    | none => rfl
    | some data =>
      cases ht : data.truthy with
      | false => simp [ht]
      | true =>
        simp only [ht, Bool.true_eq_false, reduceIte]
        cases hd : data.discussions with
        | none => rfl
        | some ds =>
          cases hg : generate_code_review_pdf engine now ds
              (data.name.getD defaultPdfName) <;> simp [hg]

theorem c7_auth_witness :
    reqBadKey.method = methodPOST
    ∧ keyValid [DEFAULT_KEY] reqBadKey.api_key = false
    ∧ handle_generate_pdf [DEFAULT_KEY] engineOk nowSample reqBadKey
        = (HandlerResult.response (jsonErrorResponse 401 msgInvalidKey),
           [invalidKeyLog (some badKey)])
    ∧ (handle_generate_pdf [DEFAULT_KEY] engineOk nowSample reqSample).2
        = [usedKeyLog (some DEFAULT_KEY)] :=
  have h := c7_auth [DEFAULT_KEY] engineOk nowSample reqBadKey rfl (by decide)
  ⟨rfl, by decide, h.1, h.2.2.2 reqSample rfl (by decide)⟩

/-- Claim C2 (counterexample): a PDF-engine failure can produce a 200.  On
a fully valid request, an engine whose status object reports an error
(`err = 1`) and which wrote nothing still yields status 200, because
`handle_generate_pdf` never inspects the `pisa_status` returned by
`generate_code_review_pdf`'s engine call. -/
theorem c2_counterexample :
    engineFail (htmlHeader defaultPdfName nowSample ++ htmlFooter)
      = Except.ok (⟨1⟩, [])
    ∧ (⟨1⟩ : PisaStatus).err ≠ 0
    ∧ (handle_generate_pdf [DEFAULT_KEY] engineFail nowSample reqEmptyList).1.statusCode
        = 200 := by
  exact ⟨rfl, by decide, rfl⟩

/-- Claim C2 (amended): for an authenticated request passing body and field
validation, a `formatError`, `structureError`, or an exception raised
inside the PDF engine is not caught by the handler — it propagates as an
unhandled crash that the transport surfaces as a generic 500; but a
PDF-engine failure reported only through the returned status object is
ignored, and the handler returns 200 with whatever bytes the engine wrote
(so an engine failure can produce a 200). -/
theorem c2_amended (validKeys : List String) (engine : Engine) (now : String)
    (req : Request) (data : ReqBody) (ds : List Discussion)
    (hm : req.method = methodPOST) (hk : keyValid validKeys req.api_key = true)
    (hj : req.json = some data) (ht : data.truthy = true)
    (hd : data.discussions = some ds) :
    (∀ e, generate_code_review_pdf engine now ds (data.name.getD defaultPdfName)
            = Except.error e →
        handle_generate_pdf validKeys engine now req
          = (HandlerResult.crash e, [usedKeyLog req.api_key])
        ∧ (HandlerResult.crash e).statusCode = 500)
    ∧ (∀ html st bytes,
        generate_html now ds (data.name.getD defaultPdfName) = Except.ok html →
        engine html = Except.ok (st, bytes) →
        handle_generate_pdf validKeys engine now req
          = (HandlerResult.response (send_pdf_response bytes pdfFileName),
             [usedKeyLog req.api_key])
        ∧ (send_pdf_response bytes pdfFileName).status = 200) := by
  constructor
  · intro e he
    refine ⟨?_, rfl⟩
    simp [handle_generate_pdf, hm, hk, hj, ht, hd, he]
  · intro html st bytes hh heng
    have hgen : generate_code_review_pdf engine now ds (data.name.getD defaultPdfName)
        = Except.ok bytes := by
      simp [generate_code_review_pdf, hh, heng]
    refine ⟨?_, rfl⟩
    simp [handle_generate_pdf, hm, hk, hj, ht, hd, hgen]

theorem c2_amended_witness :
    generate_code_review_pdf engineOk nowSample [emptyDiscussion] defaultPdfName
      = Except.error AppError.structureError
    ∧ handle_generate_pdf [DEFAULT_KEY] engineOk nowSample reqEmptyNotes
        = (HandlerResult.crash AppError.structureError,
           [usedKeyLog (some DEFAULT_KEY)])
    ∧ (HandlerResult.crash AppError.structureError).statusCode = 500 :=
  have h := (c2_amended [DEFAULT_KEY] engineOk nowSample reqEmptyNotes bodyEmptyNotes
      [emptyDiscussion] rfl (by decide) rfl rfl rfl).1 AppError.structureError rfl
  ⟨rfl, h.1, h.2⟩

/-- Claim C8: an authenticated request with a parseable body containing a
`discussions` field that renders and converts successfully gets a 200 with
`Content-Type: application/pdf`, a `Content-Disposition` attachment header
whose filename is the fixed `code_review.pdf` (independent of the `name`
field, which only feeds the document title), and the non-empty engine
bytes as body. -/
theorem c8_success (validKeys : List String) (engine : Engine) (now : String)
    (req : Request) (data : ReqBody) (ds : List Discussion) (bytes : List Nat)
    (hm : req.method = methodPOST) (hk : keyValid validKeys req.api_key = true)
    (hj : req.json = some data) (ht : data.truthy = true)
    (hd : data.discussions = some ds)
    (hgen : generate_code_review_pdf engine now ds (data.name.getD defaultPdfName)
              = Except.ok bytes)
    (hne : bytes ≠ []) :
    (handle_generate_pdf validKeys engine now req).1
      = HandlerResult.response
          { status := 200, mimetype := mimePdf,
            contentDisposition := some (dispositionPre ++ pdfFileName),
            body := RespBody.pdf bytes }
    ∧ bytes ≠ [] := by
  refine ⟨?_, hne⟩
  simp [handle_generate_pdf, hm, hk, hj, ht, hd, hgen, send_pdf_response]

theorem c8_success_witness :
    generate_code_review_pdf engineOk nowSample [d1] defaultPdfName
      = Except.ok pdfBytesSample
    ∧ pdfBytesSample ≠ []
    ∧ (handle_generate_pdf [DEFAULT_KEY] engineOk nowSample reqSample).1
        = HandlerResult.response
            { status := 200, mimetype := mimePdf,
              contentDisposition := some (dispositionPre ++ pdfFileName),
              body := RespBody.pdf pdfBytesSample } :=
  have h := c8_success [DEFAULT_KEY] engineOk nowSample reqSample bodySample [d1]
      pdfBytesSample rfl (by decide) rfl rfl rfl rfl (by decide)
  ⟨rfl, by decide, h.1⟩

/-- Claim C9: the handler renders with the title `data.get('name', 'Code
Review Comments')` — so an absent `name` defaults to "Code Review
Comments" — and whenever the HTML document is produced, the chosen title
appears verbatim inside the `<h1>` element of the document handed to the
PDF engine. -/
theorem c9_title (validKeys : List String) (engine : Engine) (now : String)
    (req : Request) (data : ReqBody) (ds : List Discussion)
    (hm : req.method = methodPOST) (hk : keyValid validKeys req.api_key = true)
    (hj : req.json = some data) (ht : data.truthy = true)
    (hd : data.discussions = some ds) :
    (handle_generate_pdf validKeys engine now req).1
      = (match generate_code_review_pdf engine now ds (data.name.getD defaultPdfName) with
         | Except.error e => HandlerResult.crash e
         | Except.ok bytes => HandlerResult.response (send_pdf_response bytes pdfFileName))
    ∧ (data.name = none → data.name.getD defaultPdfName = defaultPdfName)
    ∧ (∀ title html, generate_html now ds title = Except.ok html →
        ∃ rest, html = htmlH1Open ++ title ++ (htmlH1Close ++ rest)) := by
  refine ⟨?_, ?_, ?_⟩
  · cases hg : generate_code_review_pdf engine now ds (data.name.getD defaultPdfName) <;>
      simp [handle_generate_pdf, hm, hk, hj, ht, hd, hg]
  · intro hn
    simp [hn]
  · intro title html hh
    cases hr : renderDiscussions ds with
    | error e => simp [generate_html, hr] at hh
    | ok body =>
      refine ⟨now ++ htmlHeaderEnd ++ body ++ htmlFooter, ?_⟩
      simp only [generate_html, hr, Except.ok.injEq] at hh
      subst hh
      simp [htmlHeader, String.append_assoc]

theorem c9_title_witness :
    bodyNamed.name.getD defaultPdfName = titleSprint
    ∧ (handle_generate_pdf [DEFAULT_KEY] engineOk nowSample reqNamed).1
        = HandlerResult.response (send_pdf_response pdfBytesSample pdfFileName)
    ∧ (∃ rest, (generate_html nowSample [d1] titleSprint).toOption.getD strEmpty
        = htmlH1Open ++ titleSprint ++ (htmlH1Close ++ rest)) :=
  have h := c9_title [DEFAULT_KEY] engineOk nowSample reqNamed bodyNamed [d1]
      rfl (by decide) rfl rfl rfl
  ⟨rfl, by rw [h.1]; rfl, h.2.2 titleSprint _ rfl⟩

/-- Claim C10: an authenticated request whose `discussions` field is the
empty list renders with no error — the HTML document is exactly the title
heading and the generated-at timestamp between prologue and epilogue — and
the handler returns 200 with the engine's PDF bytes; an empty discussion
list is not a validation or structure error. -/
theorem c10_empty_list (validKeys : List String) (engine : Engine) (now : String)
    (req : Request) (data : ReqBody) (st : PisaStatus) (bytes : List Nat)
    (hm : req.method = methodPOST) (hk : keyValid validKeys req.api_key = true)
    (hj : req.json = some data) (hd : data.discussions = some [])
    (heng : engine (htmlHeader (data.name.getD defaultPdfName) now ++ htmlFooter)
              = Except.ok (st, bytes)) :
    generate_html now [] (data.name.getD defaultPdfName)
      = Except.ok (htmlHeader (data.name.getD defaultPdfName) now ++ htmlFooter)
    ∧ (handle_generate_pdf validKeys engine now req).1
        = HandlerResult.response (send_pdf_response bytes pdfFileName)
    ∧ (send_pdf_response bytes pdfFileName).status = 200 := by
  have ht : data.truthy = true := by simp [ReqBody.truthy, hd]
  have hh : generate_html now [] (data.name.getD defaultPdfName)
      = Except.ok (htmlHeader (data.name.getD defaultPdfName) now ++ htmlFooter) := by
    simp [generate_html, renderDiscussions]
  have hgen : generate_code_review_pdf engine now [] (data.name.getD defaultPdfName)
      = Except.ok bytes := by
    simp [generate_code_review_pdf, hh, heng]
  refine ⟨hh, ?_, rfl⟩
  simp [handle_generate_pdf, hm, hk, hj, ht, hd, hgen]

theorem c10_empty_list_witness :
    engineOk (htmlHeader defaultPdfName nowSample ++ htmlFooter)
      = Except.ok (⟨0⟩, pdfBytesSample)
    ∧ generate_html nowSample [] defaultPdfName
        = Except.ok (htmlHeader defaultPdfName nowSample ++ htmlFooter)
    ∧ (handle_generate_pdf [DEFAULT_KEY] engineOk nowSample reqEmptyList).1
        = HandlerResult.response (send_pdf_response pdfBytesSample pdfFileName) :=
  have h := c10_empty_list [DEFAULT_KEY] engineOk nowSample reqEmptyList bodyEmptyList
      ⟨0⟩ pdfBytesSample rfl (by decide) rfl rfl rfl
  ⟨rfl, h.1, h.2.1⟩

theorem renderReplies_decomp : ∀ (ns : List Note) (s : String),
    renderReplies ns = Except.ok s →
    ∃ rows, s = concatAll rows
      ∧ List.Forall₂ (fun row n => renderReply n = Except.ok row) rows ns := by
  intro ns
  induction ns with
  | nil =>
    intro s h
    simp only [renderReplies, Except.ok.injEq] at h
    exact ⟨[], h.symm, List.Forall₂.nil⟩
  | cons n rest ih =>
    intro s h
    simp only [renderReplies] at h
    cases hr : renderReply n with
    | error e => simp [hr] at h
    | ok row =>
      simp only [hr] at h
      cases hrest : renderReplies rest with
      | error e => simp [hrest] at h
      | ok t =>
        simp only [hrest, Except.ok.injEq] at h
        obtain ⟨rows, ht, hf⟩ := ih t hrest
        refine ⟨row :: rows, ?_, List.Forall₂.cons hr hf⟩
        rw [← h, ht]
        rfl

theorem renderDiscussions_decomp : ∀ (ds : List Discussion) (s : String),
    renderDiscussions ds = Except.ok s →
    ∃ parts, s = concatAll parts
      ∧ List.Forall₂ (fun part d => renderDiscussionBlock d = Except.ok part)
          parts ds := by
  intro ds
  induction ds with
  | nil =>
    intro s h
    simp only [renderDiscussions, Except.ok.injEq] at h
    exact ⟨[], h.symm, List.Forall₂.nil⟩
  | cons a rest ih =>
    intro s h
    simp only [renderDiscussions] at h
    cases hb : renderDiscussionBlock a with
    | error e => simp [hb] at h
    | ok block =>
      simp only [hb] at h
      cases hrest : renderDiscussions rest with
      | error e => simp [hrest] at h
      | ok t =>
        simp only [hrest, Except.ok.injEq] at h
        obtain ⟨parts, ht, hf⟩ := ih t hrest
        refine ⟨block :: parts, ?_, List.Forall₂.cons hb hf⟩
        rw [← h, ht]
        rfl

theorem renderDiscussionBlock_decomp (d : Discussion) (part : String)
    (h : renderDiscussionBlock d = Except.ok part) :
    ∃ notes rows opening closing,
      d.notes = some notes ∧ notes ≠ []
      ∧ part = opening ++ concatAll rows ++ closing
      ∧ rows.length = notes.length - 1
      ∧ List.Forall₂ (fun row n => renderReply n = Except.ok row)
          rows (notes.drop 1) := by
  cases hn : d.notes with
  | none => simp [renderDiscussionBlock, hn] at h
  | some notes =>
    simp only [renderDiscussionBlock, hn] at h
    cases notes with
    | nil => simp at h
    | cons first rest =>
      cases ha : first.author with
      | none => simp [ha] at h
      | some author =>
        simp only [ha] at h
        cases hav : author.avatar_url with
        | none => simp [hav] at h
        | some avatar_url =>
          simp only [hav] at h
          cases hca : first.created_at with
          | none => simp [hca] at h
          | some created_at =>
            simp only [hca] at h
            cases hcv : convert_utc_to_est created_at with
            | error e => simp [hcv] at h
            | ok timestamp =>
              simp only [hcv] at h
              cases hu : author.username with
              | none => simp [hu] at h
              | some username =>
                simp only [hu] at h
                cases hw : author.web_url with
                | none => simp [hw] at h
                | some web_url =>
                  simp only [hw] at h
                  cases hnm : author.name with
                  | none => simp [hnm] at h
                  | some name =>
                    simp only [hnm] at h
                    cases hid : d.id with
                    | none => simp [hid] at h
                    | some idStr =>
                      simp only [hid] at h
                      cases hbo : first.body with
                      | none => simp [hbo] at h
                      | some body =>
                        simp only [hbo] at h
                        cases hrr : renderReplies rest with
                        | error e => simp [hrr] at h
                        | ok replies =>
                          simp only [hrr, Except.ok.injEq] at h
                          obtain ⟨rows, hrows, hf⟩ :=
                            renderReplies_decomp rest replies hrr
                          refine ⟨first :: rest, rows,
                            blockOpen avatar_url name web_url username idStr body,
                            blockClose (fmtOpt timestamp), rfl, by simp, ?_, ?_, ?_⟩
                          · rw [← h, hrows]
                          · rw [List.Forall₂.length_eq hf]
                            simp
                          · simpa using hf

theorem forall₂_exists_of_mem {α β : Type} {R : α → β → Prop} :
    ∀ {l₁ : List α} {l₂ : List β}, List.Forall₂ R l₁ l₂ →
      ∀ b ∈ l₂, ∃ a, R a b := by
  intro l₁ l₂ h
  induction h with
  | nil => intro b hb; cases hb
  | cons hR _hrest ih =>
    intro b hb
    cases hb with
    | head => exact ⟨_, hR⟩
    | tail _ hb2 => exact ih b hb2

theorem sum_ge_length (l : List Nat) (h : ∀ n ∈ l, 1 ≤ n) : l.length ≤ l.sum := by
  induction l with
  | nil => simp
  | cons a t ih =>
    simp only [List.length_cons, List.sum_cons]
    have ha := h a (List.mem_cons_self a t)
    have ht := ih fun n hn => h n (List.mem_cons_of_mem a hn)
    omega

theorem map_sub_one_sum (l : List Nat) (h : ∀ n ∈ l, 1 ≤ n) :
    (l.map fun n => n - 1).sum = l.sum - l.length := by
  induction l with
  | nil => simp
  | cons a t ih =>
    simp only [List.map_cons, List.sum_cons, List.length_cons]
    have ha := h a (List.mem_cons_self a t)
    have ht := ih fun n hn => h n (List.mem_cons_of_mem a hn)
    have hlen := sum_ge_length t fun n hn => h n (List.mem_cons_of_mem a hn)
    omega

/-- Claim C4: for a discussion list that renders, the HTML document is the
prologue, then exactly one block per discussion concatenated in input list
order (no sorting, filtering or deduplication), then the epilogue; each
block is its opening chunk, then exactly `nᵢ - 1` nested reply rows — the
opening note is not nested — rendered from `notes[1:]` in input order, then
its closing chunk; and the reply-row total over the document is
`sum(nᵢ) - N`. -/
theorem c4_render_structure (now title : String) (ds : List Discussion)
    (html : String) (h : generate_html now ds title = Except.ok html) :
    ∃ parts : List String,
      parts.length = ds.length
      ∧ html = htmlHeader title now ++ concatAll parts ++ htmlFooter
      ∧ List.Forall₂
          (fun part d =>
            renderDiscussionBlock d = Except.ok part
            ∧ ∃ notes rows opening closing,
                d.notes = some notes ∧ notes ≠ []
                ∧ part = opening ++ concatAll rows ++ closing
                ∧ rows.length = notes.length - 1
                ∧ List.Forall₂ (fun row n => renderReply n = Except.ok row)
                    rows (notes.drop 1))
          parts ds
      ∧ (ds.map fun d => (d.notes.getD []).length - 1).sum
          = (ds.map fun d => (d.notes.getD []).length).sum - ds.length := by
  cases hr : renderDiscussions ds with
  | error e => simp [generate_html, hr] at h
  | ok body =>
    simp only [generate_html, hr, Except.ok.injEq] at h
    obtain ⟨parts, hbody, hf⟩ := renderDiscussions_decomp ds body hr
    have hf2 : List.Forall₂
        (fun part d =>
          renderDiscussionBlock d = Except.ok part
          ∧ ∃ notes rows opening closing,
              d.notes = some notes ∧ notes ≠ []
              ∧ part = opening ++ concatAll rows ++ closing
              ∧ rows.length = notes.length - 1
              ∧ List.Forall₂ (fun row n => renderReply n = Except.ok row)
                  rows (notes.drop 1))
        parts ds := by
      refine List.Forall₂.imp ?_ hf
      intro part d hpd
      exact ⟨hpd, renderDiscussionBlock_decomp d part hpd⟩
    have hmem : ∀ d ∈ ds, 1 ≤ (d.notes.getD []).length := by
      intro d hd
      obtain ⟨part, hpd⟩ := forall₂_exists_of_mem hf2 d hd
      obtain ⟨-, notes, rows, opening, closing, hnotes, hne, -⟩ := hpd
      rw [hnotes]
      simpa [Option.getD] using List.length_pos.mpr hne
    refine ⟨parts, List.Forall₂.length_eq hf, ?_, hf2, ?_⟩
    · rw [← h, hbody]
    · have hall : ∀ n ∈ ds.map (fun d => (d.notes.getD []).length), 1 ≤ n := by
        intro n hn
        obtain ⟨d, hd, hdn⟩ := List.mem_map.mp hn
        rw [← hdn]
        exact hmem d hd
      have := map_sub_one_sum _ hall
      simpa [List.map_map, Function.comp] using this

theorem c4_render_structure_witness :
    ∃ html, generate_html nowSample [d2, d1] defaultPdfName = Except.ok html
      ∧ ∃ parts : List String,
          parts.length = [d2, d1].length
          ∧ html = htmlHeader defaultPdfName nowSample ++ concatAll parts ++ htmlFooter
          ∧ List.Forall₂
              (fun part d =>
                renderDiscussionBlock d = Except.ok part
                ∧ ∃ notes rows opening closing,
                    d.notes = some notes ∧ notes ≠ []
                    ∧ part = opening ++ concatAll rows ++ closing
                    ∧ rows.length = notes.length - 1
                    ∧ List.Forall₂ (fun row n => renderReply n = Except.ok row)
                        rows (notes.drop 1))
              parts [d2, d1]
          ∧ ([d2, d1].map fun d => (d.notes.getD []).length - 1).sum
              = ([d2, d1].map fun d => (d.notes.getD []).length).sum - [d2, d1].length :=
  ⟨_, rfl, c4_render_structure nowSample defaultPdfName [d2, d1] _ rfl⟩

theorem renderDiscussionBlock_emptyNotes (d : Discussion)
    (h : d.notes = some []) :
    renderDiscussionBlock d = Except.error AppError.structureError := by
  simp [renderDiscussionBlock, h]

theorem renderDiscussions_error_of_empty : ∀ (ds : List Discussion) (d : Discussion),
    d ∈ ds → d.notes = some [] →
    ∃ e, renderDiscussions ds = Except.error e := by
  intro ds
  induction ds with
  | nil => intro d hd _; cases hd
  | cons a rest ih =>
    intro d hd hempty
    cases hd with
    | head =>
      exact ⟨AppError.structureError, by
        simp [renderDiscussions, renderDiscussionBlock_emptyNotes _ hempty]⟩
    | tail _ hd2 =>
      cases hb : renderDiscussionBlock a with
      | error e => exact ⟨e, by simp [renderDiscussions, hb]⟩
      | ok s =>
        obtain ⟨e, he⟩ := ih d hd2 hempty
        exact ⟨e, by simp [renderDiscussions, hb, he]⟩

theorem renderDiscussions_structureError : ∀ (ds : List Discussion) (d : Discussion),
    d ∈ ds → d.notes = some [] →
    (∀ d2 ∈ ds, discussionRenderable d2 = true ∨ d2.notes = some []) →
    renderDiscussions ds = Except.error AppError.structureError := by
  intro ds
  induction ds with
  | nil => intro d hd _ _; cases hd
  | cons a rest ih =>
    intro d hd hempty hall
    by_cases ha : a.notes = some []
    · simp [renderDiscussions, renderDiscussionBlock_emptyNotes a ha]
    · have hd2 : d ∈ rest := by
        cases hd with
        | head => exact absurd hempty ha
        | tail _ h2 => exact h2
      have haRend : discussionRenderable a = true := by
        rcases hall a (List.mem_cons_self a rest) with h1 | h1
        · exact h1
        · exact absurd h1 ha
      obtain ⟨s, hs⟩ : ∃ s, renderDiscussionBlock a = Except.ok s := by
        unfold discussionRenderable at haRend
        cases hb : renderDiscussionBlock a with
        | error e => rw [hb] at haRend; simp at haRend
        | ok s => exact ⟨s, rfl⟩
      have hrest := ih d hd2 hempty fun d2 h2 => hall d2 (List.mem_cons_of_mem a h2)
      simp [renderDiscussions, hs, hrest]

/-- Claim C5: a discussion list containing a discussion with an empty
`notes` list always fails the whole render — `generate_code_review_pdf`
returns an error and never reaches the engine, so no partial PDF is
produced — and when every discussion is either individually renderable or
empty-noted, the escaping exception is precisely the structural
(`IndexError`) one raised by `notes[0]`, not a silent skip. -/
theorem c5_empty_notes (ds : List Discussion) (d : Discussion)
    (hmem : d ∈ ds) (hempty : d.notes = some [])
    (engine : Engine) (now pdf_name : String) :
    (∃ e, generate_code_review_pdf engine now ds pdf_name = Except.error e)
    ∧ ((∀ d2 ∈ ds, discussionRenderable d2 = true ∨ d2.notes = some []) →
        generate_code_review_pdf engine now ds pdf_name
          = Except.error AppError.structureError) := by
  constructor
  · obtain ⟨e, he⟩ := renderDiscussions_error_of_empty ds d hmem hempty
    exact ⟨e, by simp [generate_code_review_pdf, generate_html, he]⟩
  · intro hall
    have hs := renderDiscussions_structureError ds d hmem hempty hall
    simp [generate_code_review_pdf, generate_html, hs]

theorem c5_empty_notes_witness :
    emptyDiscussion ∈ [d1, emptyDiscussion]
    ∧ emptyDiscussion.notes = some []
    ∧ (∃ e, generate_code_review_pdf engineOk nowSample [d1, emptyDiscussion]
          defaultPdfName = Except.error e)
    ∧ generate_code_review_pdf engineOk nowSample [d1, emptyDiscussion]
        defaultPdfName = Except.error AppError.structureError :=
  have h := c5_empty_notes [d1, emptyDiscussion] emptyDiscussion (by decide) rfl
      engineOk nowSample defaultPdfName
  ⟨by decide, rfl, h.1, h.2 (by decide)⟩

end Play
